import Mathlib

set_option autoImplicit false

/-!
Shallow embedding of `serializablecallable/base.py`.

Python strings of source text are modeled as `List Char`; identifiers and
dict keys as `String`.  Python dicts are association lists in insertion
order where a later entry for a key shadows an earlier one; `dget` looks up
the most recent binding, matching `d[k]` on a dict built by successive
updates.  Machine-level details (hashing) are abstracted: dict lookup is by
structural equality, which models Python `__eq__`-based lookup for the
object kinds that occur here.
-/

/-- Python source text. -/
abbrev Src := List Char

/-- Python objects, as far as the embedded functions inspect them:
`func name h5 src` is a function object with `__name__ = name`, an
`h5_source` attribute when `h5 = some _` (set only by `safe_exec`) and a
`source` attribute when `src = some _`; `partialApp` is a
`functools.partial` object (it has no `__name__`, but attributes can be set
on it); `mock` is a `MagicMock` stand-in (modeled only as an inert
namespace value); `plain` is a non-callable hashable object;
`uncallHashless` is a callable whose class sets `__hash__ = None`, so it is
excluded from the inverse mapping by the `isinstance(s, Hashable)` test. -/
inductive PyObj where
  | func (name : String) (h5_source : Option Src) (source_attr : Option Src)
  | partialApp (tag : Nat) (h5_source : Option Src) (source_attr : Option Src)
  | mock (tag : Nat)
  | plain (tag : Nat)
  | uncallHashless (tag : Nat)
  deriving DecidableEq

/-- Python `callable(s)`. -/
def is_callable_obj : PyObj → Bool
  | .func _ _ _ => true
  | .partialApp _ _ _ => true
  | .mock _ => true
  | .plain _ => false
  | .uncallHashless _ => true

/-- Python `isinstance(s, Hashable)`. -/
def is_hashable_obj : PyObj → Bool
  | .uncallHashless _ => false
  | _ => true

/-- `hasattr(c, "h5_source")` view: the attribute's value when present.
A `MagicMock` would auto-create any attribute, but no claim serializes a
mock, so mock attributes are not modeled. -/
def get_h5_source : PyObj → Option Src
  | .func _ h _ => h
  | .partialApp _ h _ => h
  | _ => none

/-- The `source` attribute (`c.source`): distinct from `h5_source`.
`none` means the attribute is absent and reading it raises AttributeError. -/
def get_source_attr : PyObj → Option Src
  | .func _ _ s => s
  | .partialApp _ _ s => s
  | _ => none

/-- `c.__name__`: present on function objects, absent (AttributeError) on
`functools.partial` objects and the other kinds modeled here. -/
def py_name : PyObj → Option String
  | .func n _ _ => some n
  | _ => none

/-- `f.h5_source = source` (attribute assignment; function and partial
objects accept it, other kinds are not exercised by the code paths the
claims cover). -/
def set_h5_source (c : PyObj) (s : Src) : PyObj :=
  match c with
  | .func n _ sa => .func n (some s) sa
  | .partialApp t _ sa => .partialApp t (some s) sa
  | c => c

/-- `isinstance(c, partial)`. -/
def is_partial_app : PyObj → Bool
  | .partialApp _ _ _ => true
  | _ => false

/-- A loaded Python module: `name` is `module.__name__` and `members` is
`inspect.getmembers(module)` as (attribute name, value) pairs. -/
structure PyModule where
  name : String
  members : List (String × PyObj)
  deriving DecidableEq

/-- Python dicts as insertion-ordered association lists. -/
abbrev Dict (K V : Type) := List (K × V)

/-- `d[k]` lookup: the most recent binding of `k` wins, matching a Python
dict built by successive inserts/updates. -/
def dget {K V : Type} [DecidableEq K] (d : Dict K V) (k : K) : Option V :=
  (d.reverse.find? (fun p => decide (p.1 = k))).map Prod.snd

/-- `list(d.keys())`: unique keys in first-insertion order. -/
def dict_keys {K V : Type} [DecidableEq K] (d : Dict K V) : List K :=
  (d.map Prod.fst).dedup

/-- `d.items()`: each key once, with its latest value. -/
def dict_items {K V : Type} [DecidableEq K] (d : Dict K V) : List (K × V) :=
  (dict_keys d).filterMap (fun k => (dget d k).map (fun v => (k, v)))

/-- `namespace_for_module(module)`: `dict(inspect.getmembers(module))`. -/
def namespace_for_module (m : PyModule) : Dict String PyObj :=
  m.members

/-- `namespace_for_modules(modules)`: start from `{}` and
`namespace.update(namespace_for_module(m))` for each module in order.  A
dict update is appending the new entries: for lookup the appended entries
shadow the earlier ones, which is exactly update semantics. -/
def namespace_for_modules (mods : List PyModule) : Dict String PyObj :=
  mods.foldl (fun ns m => ns ++ namespace_for_module m) []

/-- Spec-side definition (for the refinement claim about merge order): the
value a name has in the last module of the list that defines it. -/
def last_module_value (mods : List PyModule) (k : String) : Option PyObj :=
  mods.foldl
    (fun acc m =>
      match dget (namespace_for_module m) k with
      | some v => some v
      | none => acc)
    none

/-- The portable record `SerializedCallable(name, source, modules)`. -/
structure SerializedCallable where
  name : String
  source : Option Src
  modules : List String
  deriving DecidableEq

/-- Python exceptions raised by the embedded code paths.  The spec names
them abstractly: `keyError` is its NameResolutionError, `importError` its
ResolutionError, `sourceError` its SourceUnavailableError, `valueError`
(the message is "Partial function serialization is not yet supported") its
UnsupportedCallableError, `execError` its ExecutionError. -/
inductive PyErr where
  | attributeError
  | valueError
  | keyError
  | importError
  | sourceError
  | indexError
  | execError
  deriving DecidableEq

/-- `k.startswith('__') and k.endswith('__')`: the dunder filter used when
building the mock namespace. -/
def is_dunder (k : String) : Bool :=
  decide (k.toList.take 2 = ['_', '_']) && decide (k.toList.reverse.take 2 = ['_', '_'])

/-- The characters `str.lstrip()` strips, restricted to ASCII (Unicode
space characters are out of scope for source lines). -/
def is_py_space (c : Char) : Bool :=
  c = ' ' || c = '\t' || c = '\n' || c = '\r' || c = '\x0b' || c = '\x0c'

/-- `len(l) - len(l.lstrip())`: the leading-whitespace count of line `l`
(the local variable `leading_space` in `extract_source`). -/
def leading_space (l : List Char) : Nat :=
  l.length - (l.dropWhile is_py_space).length

/-- `[l[leading_space:] for l in lines]`: strip the first line's
leading-whitespace count from every line. -/
def dedent_lines : List (List Char) → List (List Char)
  | [] => []
  | l :: rest => (l :: rest).map (fun li => li.drop (leading_space l))

/-- `extract_source(c)` after `inspect.getsource(c)` has been retrieved: the
input is the `splitlines()` line list of the retrieved source.  `lines[0]`
raises IndexError on an empty line list (`none`); otherwise the dedented
lines are re-joined with `'\n'.join(...)`. -/
def extract_source (lines : List (List Char)) : Option (List Char) :=
  match lines with
  | [] => none
  | _ :: _ => some (List.intercalate ['\n'] (dedent_lines lines))

/-- The local `name_to_callable` of `serialize_callable`:
`{n: s for n, s in namespace_for_modules(modules).items() if callable(s) and isinstance(s, Hashable)}`. -/
def name_to_callable (modules : List PyModule) : Dict String PyObj :=
  (dict_items (namespace_for_modules modules)).filter
    (fun p => is_callable_obj p.2 && is_hashable_obj p.2)

/-- The local `callable_to_name` of `serialize_callable`:
`{s: n for n, s in name_to_callable.items()}`. -/
def callable_to_name (modules : List PyModule) : Dict PyObj String :=
  (name_to_callable modules).map (fun p => (p.2, p.1))

/-- `serialize_callable(c, modules)`, parameterized by `getsrc`, the result
of `inspect.getsource(c).splitlines()` (`none` when the source is not
retrievable, i.e. `inspect.getsource` raises).  Branches in source order:
membership in the inverse mapping, then `hasattr(c, 'h5_source')` — whose
branch reads `c.__name__` and `c.source`, each raising AttributeError when
absent — then `isinstance(c, partial)`, then source extraction. -/
def serialize_callable (getsrc : PyObj → Option (List (List Char)))
    (c : PyObj) (modules : List PyModule) : Except PyErr SerializedCallable :=
  let module_names := modules.map PyModule.name
  match dget (callable_to_name modules) c with
  | some n => .ok ⟨n, none, module_names⟩
  | none =>
    if (get_h5_source c).isSome then
      match py_name c, get_source_attr c with
      | some n, some s => .ok ⟨n, some s, module_names⟩
      | _, _ => .error .attributeError
    else if is_partial_app c then
      .error .valueError
    else
      match py_name c with
      | none => .error .attributeError
      | some n =>
        match getsrc c with
        | none => .error .sourceError
        | some lines =>
          match extract_source lines with
          | none => .error .indexError
          | some s => .ok ⟨n, some s, module_names⟩

/-- A heap of Python dict objects; a reference is an index into the heap.
This models dict identity and in-place mutation (`exec` mutates the globals
dict it is handed), which is what the frame-effect claims are about. -/
structure PyState where
  dicts : List (Dict String PyObj)
  deriving DecidableEq

/-- Contents of the dict object referenced by `r`. -/
def read_dict (st : PyState) (r : Nat) : Dict String PyObj :=
  (st.dicts[r]?).getD []

/-- Overwrite the contents of the dict object referenced by `r`. -/
def write_dict (st : PyState) (r : Nat) (d : Dict String PyObj) : PyState :=
  ⟨st.dicts.set r d⟩

/-- Allocate a fresh dict object with contents `d` (e.g. `d.copy()`). -/
def alloc_dict (st : PyState) (d : Dict String PyObj) : Nat × PyState :=
  (st.dicts.length, ⟨st.dicts ++ [d]⟩)

/-- Abstract semantics of `exec(source, ns)`: from the source text and the
contents of the globals dict, the new contents of that dict, or the error
the source raised.  The Python interpreter is outside the embedding; the
theorems hold for an arbitrary `ExecSem`. -/
def ExecSem : Type := Src → Dict String PyObj → Except PyErr (Dict String PyObj)

/-- `safe_exec(source, namespace, name)` where `r` references the caller's
namespace dict inside `st`: copies the dict, execs the source in the copy
(mutating the copy, not the caller's dict), reads back `namespace[name]`
(KeyError when unbound) and attaches the provenance tag
`f.h5_source = source`. -/
def safe_exec (E : ExecSem) (source : Src) (r : Nat) (name : String)
    (st : PyState) : Except PyErr PyObj × PyState :=
  let d := read_dict st r
  let allocated := alloc_dict st d
  match E source (read_dict allocated.2 allocated.1) with
  | .error e => (.error e, allocated.2)
  | .ok d2 =>
    let st2 := write_dict allocated.2 allocated.1 d2
    match dget d2 name with
    | none => (.error .keyError, st2)
    | some f => (.ok (set_h5_source f source), st2)

/-- `deserialize_callable_in_namespace(name, source, namespace)` where `r`
references the namespace dict: direct lookup (`namespace[name]`, KeyError
when absent) when `source is None`, otherwise `safe_exec`. -/
def deserialize_callable_in_namespace (E : ExecSem) (name : String)
    (source : Option Src) (r : Nat) (st : PyState) :
    Except PyErr PyObj × PyState :=
  match source with
  | none =>
    (match dget (read_dict st r) name with
     | some v => .ok v
     | none => .error .keyError, st)
  | some src => safe_exec E src r name st

/-- `str_to_module(module_str)`: `importlib.import_module`, abstracted as a
loader environment; unloadable identifiers raise. -/
def str_to_module (loader : String → Option PyModule) (s : String) :
    Except PyErr PyModule :=
  match loader s with
  | some m => .ok m
  | none => .error .importError

/-- `deserialize_callable(name, source, modules)`: load each module string,
build the merged namespace (a fresh dict object), and delegate. -/
def deserialize_callable (loader : String → Option PyModule) (E : ExecSem)
    (name : String) (source : Option Src) (module_strs : List String)
    (st : PyState) : Except PyErr PyObj × PyState :=
  match module_strs.mapM loader with
  | none => (.error .importError, st)
  | some mods =>
    let allocated := alloc_dict st (namespace_for_modules mods)
    deserialize_callable_in_namespace E name source allocated.1 allocated.2

/-- The comprehension at lines 27–28 of `serialize_callable_and_test`:
`{k: MagicMock() for k in namespace if not (k.startswith('__') and k.endswith('__'))}`.
Each step creates a fresh `MagicMock`, modeled by numbering them. -/
def mock_namespace (ns : Dict String PyObj) : Dict String PyObj :=
  ((dict_keys ns).filter (fun k => !(is_dunder k))).enum.map
    (fun p => (p.2, PyObj.mock p.1))

/-- The sandboxed namespace the validation step of
`serialize_callable_and_test` builds for a record with source text. -/
def validation_mock_namespace (modules : List PyModule) : Dict String PyObj :=
  mock_namespace (namespace_for_modules modules)

/-- The values `builtins.__import__` holds during `test_callable`: the
original builtin (`orig_import`, saved at line 49), the `MagicMock` that
`patch(import_string, side_effect=import_mock)` installs, or the bare
`import_mock` function that `import_mock` itself re-installs after a
successful real import. -/
inductive ImportHook where
  | real
  | patchedMock
  | mockFn
  deriving DecidableEq

/-- One `import name` statement executed by the callable's body: it invokes
whatever `builtins.__import__` currently is.  Under `patchedMock` or
`mockFn` that runs `import_mock`, which first restores the real import
(`__builtin__.__import__ = orig_import`), then really imports the module
(`orig_import(name)`, raising ImportError when it does not exist — modeled
by the environment `ex`), then re-installs itself and returns a fresh
`MagicMock`.  On the raising path the hook is left at `real`, because the
re-install line is never reached.  Under `real` it is a plain real
import.  Returns the new hook value and whether an exception was raised. -/
def import_step (ex : String → Bool) (m : String) : ImportHook → ImportHook × Bool
  | .real => (.real, !(ex m))
  | _ => if ex m then (.mockFn, false) else (.real, true)

/-- The sequence of imports the callable's body performs, stopping at the
first exception. -/
def run_imports (ex : String → Bool) : List String → ImportHook → ImportHook × Bool
  | [], h => (h, false)
  | m :: rest, h =>
    match import_step ex m h with
    | (h1, true) => (h1, true)
    | (h1, false) => run_imports ex rest h1

/-- `with patch(import_string, side_effect=import_mock): c(*args)` —
`patch.__enter__` saves the current `__import__` and installs the mock;
`patch.__exit__` writes the saved value back on both the normal and the
exceptional exit path.  Returns the hook after the `with` block and whether
the body raised. -/
def patched_call (body : ImportHook → ImportHook × Bool) (h0 : ImportHook) :
    ImportHook × Bool :=
  let saved := h0
  let after := body .patchedMock
  (saved, after.2)

/-- The import-hook effect of `test_callable(c)`: `h0` is the value of
`builtins.__import__` on entry (also the `orig_import` saved at line 49);
the body performs `imports` in order and then — when no import raised —
raises iff `bodyRaises` (any other exception the body surfaces).  Returns
the final `builtins.__import__` and whether `c(*args)` raised. -/
def test_callable (ex : String → Bool) (imports : List String)
    (bodyRaises : Bool) (h0 : ImportHook) : ImportHook × Bool :=
  patched_call
    (fun h =>
      match run_imports ex imports h with
      | (h1, true) => (h1, true)
      | (h1, false) => (h1, bodyRaises))
    h0

/-- The final line of `test_callable`:
`assert __builtin__.__import__ == orig_import`, evaluated on the normal
exit path. -/
def test_callable_assert (ex : String → Bool) (imports : List String)
    (bodyRaises : Bool) (h0 : ImportHook) : Bool :=
  decide ((test_callable ex imports bodyRaises h0).1 = h0)

/-- An entry of `SerializableCallable.modules`: a loaded module object (as
`__init__` receives) or a module-identifier string (as `__setstate__`
stores). -/
inductive ModuleSlot where
  | mod (m : PyModule)
  | strId (s : String)
  deriving DecidableEq

/-- `module_to_str(module)` is `module.__name__`: a loaded module yields its
name; a plain string has no `__name__` attribute, so the lookup raises
AttributeError. -/
def module_to_str : ModuleSlot → Except PyErr String
  | .mod m => .ok m.name
  | .strId _ => .error .attributeError

/-- The `SerializableCallable` pickling wrapper: `self.callable` and
`self.modules`. -/
structure SerializableCallable where
  callable : PyObj
  modules : List ModuleSlot
  deriving DecidableEq

/-- `__init__(self, callable, modules)`, called with loaded module
objects. -/
def SerializableCallable_init (c : PyObj) (mods : List PyModule) :
    SerializableCallable :=
  ⟨c, mods.map ModuleSlot.mod⟩

/-- The `__init__` invariant `__getstate__` relies on: every entry of
`self.modules` is a loaded module object (so `module_to_str` can read its
`__name__`). -/
def modules_are_loaded (l : List ModuleSlot) : Bool :=
  l.all fun s =>
    match s with
    | .mod _ => true
    | .strId _ => false

/-- `__setstate__(self, state)`: deserializes the record and stores the
record's module-identifier strings in `self.modules`.  The state dict has
the same three fields as the record. -/
def SerializableCallable_setstate (loader : String → Option PyModule)
    (E : ExecSem) (state : SerializedCallable) (st : PyState) :
    Except PyErr SerializableCallable × PyState :=
  match deserialize_callable loader E state.name state.source state.modules st with
  | (.error e, st2) => (.error e, st2)
  | (.ok c, st2) => (.ok ⟨c, state.modules.map ModuleSlot.strId⟩, st2)

/-! Concrete fixtures used by closed-form evaluations. -/

/-- The source text of a minimal function definition. -/
def src_f : Src := "def f(): pass".toList

/-- Exec semantics for `src_f`: executing `def f(): pass` in a globals dict
adds a binding of `f` to a fresh function object with no attributes. -/
def exec_def_f : ExecSem := fun _ ns => .ok (ns ++ [("f", PyObj.func "f" none none)])

/-- Exec semantics that leave the globals dict unchanged. -/
def exec_id : ExecSem := fun _ ns => .ok ns

/-- A module exposing, as every real module does, a dunder member next to an
ordinary one. -/
def mod_with_dunder : PyModule :=
  ⟨"m", [("__name__", PyObj.plain 0), ("f", PyObj.func "f" none none)]⟩

/-- A module that binds a partially-applied callable to the name `p`. -/
def mod_with_partial_obj : PyModule :=
  ⟨"m", [("p", PyObj.partialApp 0 none none)]⟩

/-- Modules `A` and `B`, both defining `x`. -/
def modA : PyModule := ⟨"a", [("x", PyObj.plain 0)]⟩

/-- See `modA`. -/
def modB : PyModule := ⟨"b", [("x", PyObj.plain 1)]⟩

/-- A heap holding one namespace dict. -/
def st_one : PyState := ⟨[[("f", PyObj.func "f" none none)]]⟩

/-- A loader environment resolving only `"m"`. -/
def loader_m : String → Option PyModule :=
  fun s => if s = "m" then some mod_with_dunder else none

/-- A source-free record naming `f` from module `m`. -/
def state_m : SerializedCallable := ⟨"f", none, ["m"]⟩

/-- An import environment in which every module exists. -/
def ex_all : String → Bool := fun _ => true

/-! General lemmas about the dict model. -/

theorem dget_append {K V : Type} [DecidableEq K] (a b : Dict K V) (k : K) :
    dget (a ++ b) k = ((dget b k).or (dget a k)) := by
  unfold dget
  rw [List.reverse_append, List.find?_append]
  cases b.reverse.find? (fun p => decide (p.1 = k)) <;> simp

theorem dget_isSome_iff_mem {K V : Type} [DecidableEq K] (d : Dict K V) (k : K) :
    (dget d k).isSome = true ↔ k ∈ d.map Prod.fst := by
  have h1 : (dget d k).isSome
      = (d.reverse.find? fun p => decide (p.1 = k)).isSome := by
    unfold dget
    cases d.reverse.find? fun p => decide (p.1 = k) <;> rfl
  rw [h1, List.find?_isSome]
  simp only [List.mem_reverse, List.mem_map, decide_eq_true_eq]

theorem last_module_value_acc (t : List PyModule) (k : String) (acc : Option PyObj) :
    t.foldl
        (fun a m =>
          match dget (namespace_for_module m) k with
          | some v => some v
          | none => a)
        acc
      = ((last_module_value t k).or acc) := by
  induction t generalizing acc with
  | nil => simp [last_module_value]
  | cons m t ih =>
    rw [List.foldl_cons, ih]
    have hmt : last_module_value (m :: t) k
        = t.foldl
            (fun a m =>
              match dget (namespace_for_module m) k with
              | some v => some v
              | none => a)
            (match dget (namespace_for_module m) k with
             | some v => some v
             | none => none) := by
      simp [last_module_value]
    rw [hmt, ih]
    cases dget (namespace_for_module m) k <;>
      cases last_module_value t k <;> simp

theorem dget_namespace_foldl (mods : List PyModule) (ns : Dict String PyObj)
    (k : String) :
    dget (mods.foldl (fun a m => a ++ namespace_for_module m) ns) k
      = ((last_module_value mods k).or (dget ns k)) := by
  induction mods generalizing ns with
  | nil => simp [last_module_value]
  | cons m t ih =>
    rw [List.foldl_cons, ih, dget_append]
    have hmt : last_module_value (m :: t) k
        = ((last_module_value t k).or (dget (namespace_for_module m) k)) := by
      have := last_module_value_acc t k
        (match dget (namespace_for_module m) k with
         | some v => some v
         | none => none)
      simp only [last_module_value, List.foldl_cons]
      rw [this]
      cases dget (namespace_for_module m) k <;> simp [last_module_value]
    rw [hmt]
    cases last_module_value t k <;>
      cases dget (namespace_for_module m) k <;> simp

/-! Lemmas about the dedent arithmetic. -/

theorem dropWhile_self_idem {α : Type} (p : α → Bool) (l : List α) :
    (l.dropWhile p).dropWhile p = l.dropWhile p := by
  induction l with
  | nil => rfl
  | cons a t ih =>
    by_cases h : p a = true
    · simp [List.dropWhile_cons, h, ih]
    · simp [List.dropWhile_cons, h]

theorem drop_leading_space (l : List Char) :
    l.drop (leading_space l) = l.dropWhile is_py_space := by
  have hsplit : l.length
      = (l.takeWhile is_py_space).length + (l.dropWhile is_py_space).length := by
    rw [← List.length_append, List.takeWhile_append_dropWhile]
  have hlen : leading_space l = (l.takeWhile is_py_space).length := by
    unfold leading_space
    rw [hsplit, Nat.add_sub_cancel]
  rw [hlen]
  nth_rewrite 2 [← List.takeWhile_append_dropWhile (p := is_py_space) (l := l)]
  rw [List.drop_left]

theorem leading_space_dropWhile (l : List Char) :
    leading_space (l.dropWhile is_py_space) = 0 := by
  unfold leading_space
  rw [dropWhile_self_idem, Nat.sub_self]

/-! Lemmas about the dict heap. -/

theorem read_alloc_dict_ne (st : PyState) (d : Dict String PyObj) (r : Nat)
    (hr : r < st.dicts.length) :
    read_dict (alloc_dict st d).2 r = read_dict st r := by
  simp [read_dict, alloc_dict, List.getElem?_append_left hr]

theorem read_write_dict_ne (st : PyState) (r2 : Nat) (d : Dict String PyObj)
    (r : Nat) (h : r2 ≠ r) :
    read_dict (write_dict st r2 d) r = read_dict st r := by
  simp [read_dict, write_dict, List.getElem?_set_ne h]



/-! Claim theorems. -/

/-- C4: for every ordered module list, the resolved namespace maps each name
to the value it has in the last module of the list defining that name:
merging proceeds in list order and later modules overwrite earlier ones on
collision; in particular for modules `[A, B]` both defining `x`, the
resolved `x` equals `B.x`. -/
theorem namespace_merge_last_wins :
    (∀ (mods : List PyModule) (k : String),
      dget (namespace_for_modules mods) k = last_module_value mods k)
    ∧ (∀ (A B : PyModule) (x : String) (v : PyObj),
        dget (namespace_for_module B) x = some v →
        dget (namespace_for_modules [A, B]) x = some v) := by
  have hmain : ∀ (mods : List PyModule) (k : String),
      dget (namespace_for_modules mods) k = last_module_value mods k := by
    intro mods k
    unfold namespace_for_modules
    rw [dget_namespace_foldl]
    cases last_module_value mods k <;> simp [dget]
  refine ⟨hmain, ?_⟩
  intro A B x v hB
  rw [hmain [A, B] x]
  have h2 : last_module_value [A, B] x
      = ((dget (namespace_for_module B) x).or (dget (namespace_for_module A) x)) := by
    simp only [last_module_value, List.foldl_cons, List.foldl_nil]
    cases dget (namespace_for_module A) x <;>
      cases dget (namespace_for_module B) x <;> simp
  rw [h2, hB]
  rfl

/-- C4 witness: with `modA` and `modB` both defining `x`, the merged
namespace resolves `x` to `modB`'s value. -/
theorem namespace_merge_last_wins_witness :
    dget (namespace_for_module modB) "x" = some (PyObj.plain 1)
    ∧ dget (namespace_for_modules [modA, modB]) "x" = some (PyObj.plain 1) :=
  ⟨by decide, namespace_merge_last_wins.2 modA modB "x" (PyObj.plain 1) (by decide)⟩

/-- C5: source extraction strips the first line's leading-whitespace count
from every line, and the extracted source's first line is the first line
with its leading whitespace removed, hence has zero leading whitespace. -/
theorem extract_source_dedents_first_line :
    ∀ (l : List Char) (rest : List (List Char)),
      extract_source (l :: rest)
        = some (List.intercalate ['\n'] (dedent_lines (l :: rest)))
      ∧ dedent_lines (l :: rest)
        = (l :: rest).map (fun li => li.drop (leading_space l))
      ∧ (dedent_lines (l :: rest)).head? = some (l.dropWhile is_py_space)
      ∧ leading_space (l.dropWhile is_py_space) = 0 := by
  intro l rest
  refine ⟨rfl, rfl, ?_, leading_space_dropWhile l⟩
  simp [dedent_lines, drop_leading_space]

/-- C9: with `k` the leading-whitespace count of the first line, dedenting
removes exactly the first `min(k, length)` characters of every line,
whitespace or not; a line shorter than `k` becomes empty; extraction
returns a result (no error) for every nonempty line list. -/
theorem extract_source_drops_min_count :
    ∀ (l : List Char) (rest : List (List Char)),
      dedent_lines (l :: rest)
        = (l :: rest).map (fun li => li.drop (leading_space l))
      ∧ (∀ li ∈ l :: rest,
          (li.drop (leading_space l)).length = li.length - leading_space l
          ∧ li.drop (leading_space l) = li.drop (min (leading_space l) li.length)
          ∧ (li.length ≤ leading_space l → li.drop (leading_space l) = []))
      ∧ (extract_source (l :: rest)).isSome = true := by
  intro l rest
  refine ⟨rfl, ?_, rfl⟩
  intro li _
  refine ⟨List.length_drop _ _, ?_, fun h => List.drop_eq_nil_of_le h⟩
  rcases Nat.le_total (leading_space l) li.length with h | h
  · rw [Nat.min_eq_left h]
  · rw [Nat.min_eq_right h, List.drop_eq_nil_of_le h,
      List.drop_eq_nil_of_le (Nat.le_refl _)]

/-- C9 witness: a line shorter than the first line's indent is emptied
without error. -/
theorem extract_source_drops_min_count_witness :
    "x".toList.length ≤ leading_space "  ab".toList
    ∧ "x".toList.drop (leading_space "  ab".toList) = [] :=
  ⟨by decide,
    ((extract_source_drops_min_count "  ab".toList ["x".toList]).2.1
      "x".toList (by decide)).2.2 (by decide)⟩

/-- C8: deserializing a record without source returns the object bound to
the record's name in the namespace, fails with the NameResolutionError
(KeyError) exactly when the name is absent, and leaves the heap
untouched. -/
theorem deserialize_direct_lookup :
    ∀ (E : ExecSem) (name : String) (r : Nat) (st : PyState),
      (∀ v : PyObj,
        (deserialize_callable_in_namespace E name none r st).1 = .ok v
          ↔ dget (read_dict st r) name = some v)
      ∧ ((deserialize_callable_in_namespace E name none r st).1
            = .error .keyError
          ↔ dget (read_dict st r) name = none)
      ∧ (deserialize_callable_in_namespace E name none r st).2 = st := by
  intro E name r st
  unfold deserialize_callable_in_namespace
  cases h : dget (read_dict st r) name <;> simp [h]

/-- C8 witness: direct lookup returns the bound function object. -/
theorem deserialize_direct_lookup_witness :
    (deserialize_callable_in_namespace exec_id "f" none 0 st_one).1
      = .ok (PyObj.func "f" none none) :=
  ((deserialize_direct_lookup exec_id "f" 0 st_one).1
    (PyObj.func "f" none none)).mpr (by decide)

/-- C7: deserializing a record with source executes it in a private copy of
the namespace: for every exec semantics and every valid reference to the
caller's namespace dict, the dict's contents after deserialization equal
its contents before — same keys, same values. -/
theorem deserialize_with_source_preserves_namespace :
    ∀ (E : ExecSem) (name : String) (source : Src) (r : Nat) (st : PyState),
      r < st.dicts.length →
      read_dict
          (deserialize_callable_in_namespace E name (some source) r st).2 r
        = read_dict st r := by
  intro E name source r st hr
  show read_dict (safe_exec E source r name st).2 r = read_dict st r
  unfold safe_exec
  have hne : (alloc_dict st (read_dict st r)).1 ≠ r := by
    simp only [alloc_dict]
    exact Nat.ne_of_gt hr
  cases hE : E source
      (read_dict (alloc_dict st (read_dict st r)).2
        (alloc_dict st (read_dict st r)).1) with
  | error e =>
    simp only [hE]
    exact read_alloc_dict_ne st _ r hr
  | ok d2 =>
    simp only [hE]
    cases dget d2 name <;>
      simp only [] <;>
      rw [read_write_dict_ne _ _ _ _ hne, read_alloc_dict_ne st _ r hr]

/-- C7 witness: deserializing against the heap's only namespace dict leaves
that dict unchanged. -/
theorem deserialize_with_source_preserves_namespace_witness :
    0 < (st_one : PyState).dicts.length
    ∧ read_dict
        (deserialize_callable_in_namespace exec_def_f "f" (some src_f) 0
          st_one).2 0
      = read_dict st_one 0 :=
  ⟨by decide,
    deserialize_with_source_preserves_namespace exec_def_f "f" src_f 0 st_one
      (by decide)⟩

/-- C6: for every import environment, import sequence, body outcome and
initial value of the dynamic import mechanism, `test_callable` leaves
`builtins.__import__` equal to its initial value on every exit path,
normal or exceptional, and on the normal path the closing assert holds. -/
theorem test_callable_restores_import_hook :
    ∀ (ex : String → Bool) (imports : List String) (bodyRaises : Bool)
      (h0 : ImportHook),
      (test_callable ex imports bodyRaises h0).1 = h0
      ∧ ((test_callable ex imports bodyRaises h0).2 = false →
          test_callable_assert ex imports bodyRaises h0 = true) := by
  intro ex imports bodyRaises h0
  refine ⟨rfl, fun _ => ?_⟩
  simp [test_callable_assert, test_callable, patched_call]

/-- C6 witness: a successful validation run ends with the original import
mechanism in place and a passing assert. -/
theorem test_callable_restores_import_hook_witness :
    (test_callable ex_all ["os"] false ImportHook.real).2 = false
    ∧ test_callable_assert ex_all ["os"] false ImportHook.real = true :=
  ⟨by decide,
    (test_callable_restores_import_hook ex_all ["os"] false
      ImportHook.real).2 (by decide)⟩

/-- C1 (code bug): `safe_exec` attaches the source as the `h5_source`
attribute of the reconstructed callable (which has no `source` attribute),
but the `hasattr(c, 'h5_source')` branch of `serialize_callable` reads
`c.source`; re-serializing the deserialized callable therefore raises
AttributeError instead of returning a record carrying the attached
source. -/
theorem reserialize_attached_source_raises :
    safe_exec exec_def_f src_f 0 "f" ⟨[[]]⟩
      = (.ok (PyObj.func "f" (some src_f) none),
          ⟨[[], [("f", PyObj.func "f" none none)]]⟩)
    ∧ serialize_callable (fun _ => none) (PyObj.func "f" (some src_f) none) []
      = .error .attributeError := ⟨rfl, rfl⟩

/-- C2 counterexample: for a module with a dunder member, the real merged
namespace and the sandboxed namespace do not have the same key set —
`__name__` is a key of the former but not of the latter. -/
theorem mock_namespace_misses_dunder_key :
    (dget (namespace_for_modules [mod_with_dunder]) "__name__").isSome = true
    ∧ (dget (validation_mock_namespace [mod_with_dunder]) "__name__").isSome
      = false := by
  constructor <;> rfl

/-- C2 (amended): the sandboxed namespace's key set equals the real merged
namespace's key set minus the dunder keys (keys starting and ending with
`__`), and every value of the sandboxed namespace is an inert stand-in
(`MagicMock`). -/
theorem mock_namespace_keyset_and_values :
    ∀ (ns : Dict String PyObj) (k : String),
      ((dget (mock_namespace ns) k).isSome = true
        ↔ ((dget ns k).isSome = true ∧ is_dunder k = false))
      ∧ (∀ v, dget (mock_namespace ns) k = some v → ∃ i, v = PyObj.mock i) := by
  intro ns k
  have hkeys : (mock_namespace ns).map Prod.fst
      = (dict_keys ns).filter (fun k => !(is_dunder k)) := by
    unfold mock_namespace
    rw [List.map_map]
    have hcomp : (Prod.fst ∘ fun p : Nat × String => (p.2, PyObj.mock p.1))
        = Prod.snd := rfl
    rw [hcomp, List.enum_map_snd]
  constructor
  · rw [dget_isSome_iff_mem, hkeys, List.mem_filter, dget_isSome_iff_mem]
    unfold dict_keys
    rw [List.mem_dedup]
    constructor
    · rintro ⟨h1, h2⟩
      exact ⟨h1, by simpa using h2⟩
    · rintro ⟨h1, h2⟩
      exact ⟨h1, by simpa using h2⟩
  · intro v hv
    unfold dget at hv
    rw [Option.map_eq_some'] at hv
    obtain ⟨p, hfind, hpv⟩ := hv
    have hmem : p ∈ mock_namespace ns :=
      List.mem_reverse.mp (List.mem_of_find?_eq_some hfind)
    unfold mock_namespace at hmem
    rw [List.mem_map] at hmem
    obtain ⟨q, _, rfl⟩ := hmem
    exact ⟨q.1, hpv.symm⟩

/-- C2 witness: the non-dunder key `f` survives into the sandboxed
namespace and its value is a stand-in. -/
theorem mock_namespace_keyset_and_values_witness :
    dget (validation_mock_namespace [mod_with_dunder]) "f"
      = some (PyObj.mock 0)
    ∧ ∃ i, PyObj.mock 0 = PyObj.mock i :=
  ⟨by decide,
    (mock_namespace_keyset_and_values
        (namespace_for_modules [mod_with_dunder]) "f").2
      (PyObj.mock 0) (by decide)⟩

/-- C3 counterexample: a partially-applied callable that is bound to a name
in a declared module serializes as a direct reference — no error is
raised and a record is produced. -/
theorem serialize_partial_in_namespace_succeeds :
    serialize_callable (fun _ => none) (PyObj.partialApp 0 none none)
        [mod_with_partial_obj]
      = .ok ⟨"p", none, ["m"]⟩ := rfl

/-- C3 (amended): a partially-applied callable that is not found in the
inverse callable-to-name mapping of the declared modules and carries no
`h5_source` attribute makes serialization raise the unsupported-callable
error (the `ValueError` of line 93) and produce no record. -/
theorem serialize_partial_not_in_namespace_raises :
    ∀ (getsrc : PyObj → Option (List (List Char))) (c : PyObj)
      (mods : List PyModule),
      is_partial_app c = true →
      dget (callable_to_name mods) c = none →
      get_h5_source c = none →
      serialize_callable getsrc c mods = .error .valueError := by
  intro getsrc c mods hp hn hh
  unfold serialize_callable
  simp [hn, hh, hp]

/-- C3 witness: serializing a free-standing partial against no modules
raises the unsupported-callable error. -/
theorem serialize_partial_not_in_namespace_raises_witness :
    (is_partial_app (PyObj.partialApp 1 none none) = true
      ∧ dget (callable_to_name []) (PyObj.partialApp 1 none none) = none
      ∧ get_h5_source (PyObj.partialApp 1 none none) = none)
    ∧ serialize_callable (fun _ => none) (PyObj.partialApp 1 none none) []
      = .error .valueError :=
  ⟨⟨by decide, by decide, by decide⟩,
    serialize_partial_not_in_namespace_raises (fun _ => none)
      (PyObj.partialApp 1 none none) [] (by decide) (by decide) (by decide)⟩

/-- C10: after `__setstate__` the `modules` field holds the record's
module-identifier strings, so the `__init__` invariant (every entry a
loaded module object, as `module_to_str` assumes) fails whenever the
record declared any module, while `__init__` itself establishes it; and
`module_to_str` on a string raises AttributeError. -/
theorem setstate_modules_are_strings :
    (∀ (loader : String → Option PyModule) (E : ExecSem)
        (state : SerializedCallable) (st : PyState)
        (obj : SerializableCallable) (st2 : PyState),
      SerializableCallable_setstate loader E state st = (.ok obj, st2) →
      obj.modules = state.modules.map ModuleSlot.strId
      ∧ (state.modules ≠ [] → modules_are_loaded obj.modules = false))
    ∧ (∀ (c : PyObj) (mods : List PyModule),
        modules_are_loaded (SerializableCallable_init c mods).modules = true)
    ∧ (∀ s, module_to_str (ModuleSlot.strId s) = .error .attributeError) := by
  refine ⟨?_, ?_, fun s => rfl⟩
  · intro loader E state st obj st2 h
    unfold SerializableCallable_setstate at h
    cases hres :
        deserialize_callable loader E state.name state.source
          state.modules st with
    | mk res st3 =>
    rw [hres] at h
    cases res with
    | error e => simp at h
    | ok c =>
      simp only [Prod.mk.injEq, Except.ok.injEq] at h
      obtain ⟨h1, -⟩ := h
      subst h1
      refine ⟨rfl, ?_⟩
      intro hne
      cases hmods : state.modules with
      | nil => exact absurd hmods hne
      | cons a t => simp [modules_are_loaded]
  · intro c mods
    simp [SerializableCallable_init, modules_are_loaded, List.all_map]

/-- C10 witness: a successful unpickling round-trip leaves `modules`
holding strings, violating the `__init__` invariant. -/
theorem setstate_modules_are_strings_witness :
    modules_are_loaded
        (⟨PyObj.func "f" none none,
          [ModuleSlot.strId "m"]⟩ : SerializableCallable).modules
      = false :=
  ((setstate_modules_are_strings.1 loader_m exec_id state_m ⟨[]⟩
      ⟨PyObj.func "f" none none, [ModuleSlot.strId "m"]⟩
      ⟨[namespace_for_modules [mod_with_dunder]]⟩ (by rfl)).2 (by decide))
